import Mathlib

/-!
Verification development for the `mapback` traffic-signal system (`src/app.py`).

The Python program runs four concurrent loops over shared lane arrays:
`manage_signals` (the scheduler), four `detect_vehicles` pipelines, and the
per-request `generate_frame` stream producer.  Each loop body is embedded
below as a step function over an explicit state record; one application of a
step function corresponds to one iteration of the corresponding `while True`
body.  Machine floats (`time.time()` timestamps, `np.mean` speeds) are
modelled as `Int` timestamps and rational speeds; Python lists of length 4
indexed by lane become functions out of `Fin 4`.
-/

namespace Mapback

/-- Signal colour of one lane.  The source stores the strings
`'red'` / `'green'` in `signal_states`. -/
inductive Signal where
  | red : Signal
  | green : Signal
deriving DecidableEq, Repr

/-- The `speed_info` sub-record of a detected vehicle; `kph` is `None`
(absent) when the detector reports no speed for that vehicle. -/
structure SpeedInfo where
  kph : Option ℚ
deriving DecidableEq, Repr

/-- One entry of `result["detected_vehicles"]`: an opaque identifier plus the
`speed_info` record read by `process_lane_result`. -/
structure Vehicle where
  vid : Nat
  speed_info : SpeedInfo
deriving DecidableEq, Repr

/-- The detector result dictionary consumed by `process_lane_result`:
`result["number_of_vehicles_detected"]` and `result["detected_vehicles"]`. -/
structure LaneObservation where
  number_of_vehicles_detected : Nat
  detected_vehicles : List Vehicle
deriving DecidableEq, Repr

/-- An opaque image buffer (the contents of a decoded frame). -/
abbrev Frame := List Nat

/-- `frame.copy()` on a numpy array: a fresh buffer with the same contents;
in a value semantics this is the identity on the contents. -/
def Frame.copy (f : Frame) : Frame := f

/-- The mutable fields of the `TrafficSignalSystem` object
(`app.py`, `__init__`): four-element lane arrays, the scheduler's
`current_green` / `last_signal_change`, and the green-time bounds. -/
structure TrafficSignalSystem where
  vehicle_counts : Fin 4 → Nat
  average_speeds : Fin 4 → ℚ
  signal_states : Fin 4 → Signal
  current_green : Fin 4
  last_signal_change : Int
  frames : Fin 4 → Option Frame
  min_green_time : Nat
  max_green_time : Nat
  detected_vehicles : Fin 4 → List Vehicle

/-- The state produced by `__init__(video_paths)` at startup time `t0`:
counts and speeds zero, ALL four `signal_states` entries `'red'`,
`current_green = 0`, `last_signal_change = t0`, no frames yet,
`min_green_time = 10`, `max_green_time = 60`, empty vehicle logs. -/
def initState (t0 : Int) : TrafficSignalSystem where
  vehicle_counts := fun _ => 0
  average_speeds := fun _ => 0
  signal_states := fun _ => Signal.red
  current_green := 0
  last_signal_change := t0
  frames := fun _ => none
  min_green_time := 10
  max_green_time := 60
  detected_vehicles := fun _ => []

/-- `get_green_time(vehicle_count)`: the 3-tier step function of `app.py`. -/
def getGreenTime (s : TrafficSignalSystem) (vehicle_count : Nat) : Nat :=
  if vehicle_count < 5 then s.min_green_time
  else if vehicle_count < 15 then (s.max_green_time + s.min_green_time) / 2
  else s.max_green_time

/-- The transition condition checked once per second by `manage_signals`:
`current_time - self.last_signal_change > self.get_green_time(self.vehicle_counts[self.current_green])`.
Note that it reads the CURRENT vehicle count of the green lane at every
check. -/
def signalFireCond (s : TrafficSignalSystem) (current_time : Int) : Prop :=
  current_time - s.last_signal_change >
    (getGreenTime s (s.vehicle_counts s.current_green) : Int)

instance (s : TrafficSignalSystem) (t : Int) : Decidable (signalFireCond s t) :=
  inferInstanceAs (Decidable (_ > _))

/-- One iteration of the `manage_signals` loop body at clock reading
`current_time`: if the condition fires, set the current lane `'red'`, advance
`current_green` to `(current_green + 1) % 4`, set that lane `'green'` and
reset `last_signal_change`; otherwise leave the state unchanged
(`Fin 4` addition is arithmetic mod 4). -/
def manageSignalsStep (s : TrafficSignalSystem) (current_time : Int) :
    TrafficSignalSystem :=
  if signalFireCond s current_time then
    { s with
      signal_states :=
        Function.update (Function.update s.signal_states s.current_green Signal.red)
          (s.current_green + 1) Signal.green
      current_green := s.current_green + 1
      last_signal_change := current_time }
  else s

/-- The speeds list built by `process_lane_result`:
`[v["speed_info"]["kph"] for v in result["detected_vehicles"] if v["speed_info"]["kph"] is not None]`. -/
def laneSpeeds (result : LaneObservation) : List ℚ :=
  result.detected_vehicles.filterMap (fun v => v.speed_info.kph)

/-- First statement of `process_lane_result`:
`self.vehicle_counts[lane_idx] = result["number_of_vehicles_detected"]`. -/
def processLaneResultStep1 (s : TrafficSignalSystem) (result : LaneObservation)
    (lane_idx : Fin 4) : TrafficSignalSystem :=
  { s with
    vehicle_counts :=
      Function.update s.vehicle_counts lane_idx result.number_of_vehicles_detected }

/-- Second statement of `process_lane_result`:
`self.average_speeds[lane_idx] = np.mean(speeds) if speeds else 0`. -/
def processLaneResultStep2 (s : TrafficSignalSystem) (result : LaneObservation)
    (lane_idx : Fin 4) : TrafficSignalSystem :=
  { s with
    average_speeds :=
      Function.update s.average_speeds lane_idx
        (if laneSpeeds result = [] then 0
         else (laneSpeeds result).sum / (laneSpeeds result).length) }

/-- Third statement of `process_lane_result`:
`self.detected_vehicles[lane_idx] = result["detected_vehicles"]`. -/
def processLaneResultStep3 (s : TrafficSignalSystem) (result : LaneObservation)
    (lane_idx : Fin 4) : TrafficSignalSystem :=
  { s with
    detected_vehicles :=
      Function.update s.detected_vehicles lane_idx result.detected_vehicles }

/-- `process_lane_result(result, lane_idx)`: the three field writes in source
order.  The three statements execute sequentially with no lock held, so the
states after step 1 and after step 2 are observable by concurrent readers. -/
def processLaneResult (s : TrafficSignalSystem) (result : LaneObservation)
    (lane_idx : Fin 4) : TrafficSignalSystem :=
  processLaneResultStep3
    (processLaneResultStep2 (processLaneResultStep1 s result lane_idx) result lane_idx)
    result lane_idx

/-- Modelled from the spec: the external FrameSource (`cv2.VideoCapture`),
specified as an opaque frame producer with `next_frame()` and `rewind()`
(spec section 6).  `frames` is the underlying finite video, `pos` the read
position (`CAP_PROP_POS_FRAMES`). -/
structure Cap where
  frames : List Frame
  pos : Nat
deriving DecidableEq, Repr

/-- `cap.read()`: returns the frame at the current position and advances it,
or reports failure (`ret = False`) leaving the position unchanged. -/
def Cap.read (c : Cap) : Option Frame × Cap :=
  match c.frames[c.pos]? with
  | some f => (some f, { c with pos := c.pos + 1 })
  | none => (none, c)

/-- `cap.set(cv2.CAP_PROP_POS_FRAMES, 0)`: rewind to the first frame. -/
def Cap.rewind (c : Cap) : Cap := { c with pos := 0 }

/-- The loop-local state of one `detect_vehicles` pipeline: the shared
system state, the lane's capture, and the local `frame_count` counter. -/
structure PipelineState where
  sys : TrafficSignalSystem
  cap : Cap
  frame_count : Nat

/-- One iteration of the `detect_vehicles(lane_idx)` loop body.  `detector`
embeds the external `self.vehicle_detectors[lane_idx].process_frame(frame, timestamp)`
call, which may raise (there is no `try`/`except` in the loop, so a raised
exception propagates out of the iteration, modelled as `Except.error`).
On a successful read: every 3rd frame (`frame_count % 3 == 0`) is processed
(store the frame, publish the detector result), and `frame_count` is
incremented whether or not detection ran.  On a failed read (`ret` false,
including end of stream): rewind the capture; `frame_count` is untouched. -/
def detectVehiclesStep (detector : Frame → Int → Except String LaneObservation)
    (lane_idx : Fin 4) (timestamp : Int) (p : PipelineState) :
    Except String PipelineState :=
  match p.cap.read with
  | (some frame, cap') =>
    if p.frame_count % 3 = 0 then
      match detector frame timestamp with
      | Except.ok result =>
        let s1 := { p.sys with frames := Function.update p.sys.frames lane_idx (some frame) }
        Except.ok ⟨processLaneResult s1 result lane_idx, cap', p.frame_count + 1⟩
      | Except.error e => Except.error e
    else Except.ok ⟨p.sys, cap', p.frame_count + 1⟩
  | (none, _) => Except.ok ⟨p.sys, p.cap.rewind, p.frame_count⟩

/-- The multipart boundary-and-header bytes prepended to every yielded
payload: `b'--frame\r\nContent-Type: image/jpeg\r\n\r\n'`. -/
def partHeaderBytes : List Nat :=
  ("--frame\r\nContent-Type: image/jpeg\r\n\r\n".toList.map Char.toNat)

/-- A full yielded payload: header, encoded image bytes, trailing CRLF. -/
def framePayload (frameBytes : List Nat) : List Nat :=
  partHeaderBytes ++ frameBytes ++ ("\r\n".toList.map Char.toNat)

/-- One iteration of the `generate_frame(lane_idx)` generator body,
parametrised by the external JPEG encoder (`cv2.imencode` then `tobytes`).
The body only reads `self.frames[lane_idx]`; the state is threaded through
unchanged because the generator performs no write to `self`.  A Python list
read with an index outside `[0, 4)` raises `IndexError`; there is no bounds
check in the source, so that is the embedded behaviour.  When the lane has
no frame yet the iteration yields nothing (`Option.none`) and the loop
spins. -/
def generateFrameStep (encode : Frame → List Nat) (s : TrafficSignalSystem)
    (lane_idx : Nat) : Except String (Option (List Nat)) × TrafficSignalSystem :=
  if h : lane_idx < 4 then
    match s.frames ⟨lane_idx, h⟩ with
    | some f => (Except.ok (some (framePayload (encode (Frame.copy f)))), s)
    | none => (Except.ok none, s)
  else (Except.error "IndexError: list index out of range", s)

/-- At most the current lane is green: every green lane is `current_green`. -/
def greensAtMostCurrent (s : TrafficSignalSystem) : Prop :=
  ∀ i : Fin 4, s.signal_states i = Signal.green → i = s.current_green

/-- Exactly one lane is green, namely `current_green`. -/
def greensExactlyCurrent (s : TrafficSignalSystem) : Prop :=
  ∀ i : Fin 4, s.signal_states i = Signal.green ↔ i = s.current_green

instance (s : TrafficSignalSystem) : Decidable (greensAtMostCurrent s) :=
  inferInstanceAs (Decidable (∀ i : Fin 4, s.signal_states i = Signal.green → i = s.current_green))

instance (s : TrafficSignalSystem) : Decidable (greensExactlyCurrent s) :=
  inferInstanceAs (Decidable (∀ i : Fin 4, s.signal_states i = Signal.green ↔ i = s.current_green))

/-- A detector observation with two vehicles, one reporting a speed. -/
def obsPrev : LaneObservation := ⟨2, [⟨1, ⟨some 30⟩⟩, ⟨2, ⟨none⟩⟩]⟩

/-- A later detector observation with one vehicle. -/
def obsNext : LaneObservation := ⟨3, [⟨3, ⟨some 50⟩⟩]⟩

/-- The observation of spec Scenario C: three vehicles with speeds
`[30, None, 50]` and `number_of_vehicles_detected = 3`. -/
def scenarioCObs : LaneObservation := ⟨3, [⟨1, ⟨some 30⟩⟩, ⟨2, ⟨none⟩⟩, ⟨3, ⟨some 50⟩⟩]⟩

/-- An observation in which no vehicle reports a speed. -/
def obsNoSpeed : LaneObservation := ⟨1, [⟨7, ⟨none⟩⟩]⟩

/-- A detector that raises on every frame. -/
def failingDetector : Frame → Int → Except String LaneObservation :=
  fun _ _ => Except.error "detector exception"

/-- A detector that succeeds with an empty observation on every frame. -/
def stubDetector : Frame → Int → Except String LaneObservation :=
  fun _ _ => Except.ok ⟨0, []⟩

/-- A system state in which lane 0 holds a (one-byte) frame. -/
def sFrame : TrafficSignalSystem :=
  { initState 0 with frames := Function.update (initState 0).frames 0 (some [5]) }

section Helpers

theorem manageSignalsStep_not_fired (s : TrafficSignalSystem) (t : Int)
    (h : ¬ signalFireCond s t) : manageSignalsStep s t = s := if_neg h

theorem manageSignalsStep_fired (s : TrafficSignalSystem) (t : Int)
    (h : signalFireCond s t) :
    manageSignalsStep s t = { s with
      signal_states :=
        Function.update (Function.update s.signal_states s.current_green Signal.red)
          (s.current_green + 1) Signal.green
      current_green := s.current_green + 1
      last_signal_change := t } := if_pos h

theorem fin4_succ_ne : ∀ c : Fin 4, c + 1 ≠ c := by decide

theorem fired_greensExactlyCurrent (s : TrafficSignalSystem) (t : Int)
    (hmost : greensAtMostCurrent s) (hf : signalFireCond s t) :
    greensExactlyCurrent (manageSignalsStep s t) := by
  intro i
  rw [manageSignalsStep_fired s t hf]
  simp only [Function.update_apply]
  by_cases h1 : i = s.current_green + 1
  · simp [h1]
  · rw [if_neg h1]
    by_cases h2 : i = s.current_green
    · simp only [if_pos h2]
      constructor
      · intro hg; exact absurd hg (by simp)
      · intro hi; exact absurd hi h1
    · rw [if_neg h2]
      constructor
      · intro hg; exact absurd (hmost i hg) h2
      · intro hi; exact absurd hi h1

theorem processLaneResult_counts (s : TrafficSignalSystem) (result : LaneObservation)
    (lane_idx : Fin 4) :
    (processLaneResult s result lane_idx).vehicle_counts
      = Function.update s.vehicle_counts lane_idx result.number_of_vehicles_detected := rfl

theorem processLaneResult_speeds (s : TrafficSignalSystem) (result : LaneObservation)
    (lane_idx : Fin 4) :
    (processLaneResult s result lane_idx).average_speeds
      = Function.update s.average_speeds lane_idx
          (if laneSpeeds result = [] then 0
           else (laneSpeeds result).sum / (laneSpeeds result).length) := rfl

theorem processLaneResult_vehicles (s : TrafficSignalSystem) (result : LaneObservation)
    (lane_idx : Fin 4) :
    (processLaneResult s result lane_idx).detected_vehicles
      = Function.update s.detected_vehicles lane_idx result.detected_vehicles := rfl

theorem detectVehiclesStep_read_fail (det : Frame → Int → Except String LaneObservation)
    (lane_idx : Fin 4) (ts : Int) (p : PipelineState)
    (h : p.cap.frames[p.cap.pos]? = none) :
    detectVehiclesStep det lane_idx ts p
      = Except.ok ⟨p.sys, p.cap.rewind, p.frame_count⟩ := by
  simp [detectVehiclesStep, Cap.read, h]

theorem detectVehiclesStep_skip (det : Frame → Int → Except String LaneObservation)
    (lane_idx : Fin 4) (ts : Int) (p : PipelineState) (frame : Frame) (cap' : Cap)
    (hr : p.cap.read = (some frame, cap')) (hm : p.frame_count % 3 ≠ 0) :
    detectVehiclesStep det lane_idx ts p = Except.ok ⟨p.sys, cap', p.frame_count + 1⟩ := by
  simp [detectVehiclesStep, hr, hm]

theorem detectVehiclesStep_process (det : Frame → Int → Except String LaneObservation)
    (lane_idx : Fin 4) (ts : Int) (p : PipelineState) (frame : Frame) (cap' : Cap)
    (result : LaneObservation) (hr : p.cap.read = (some frame, cap'))
    (hm : p.frame_count % 3 = 0) (hd : det frame ts = Except.ok result) :
    detectVehiclesStep det lane_idx ts p
      = Except.ok ⟨processLaneResult
          { p.sys with frames := Function.update p.sys.frames lane_idx (some frame) }
          result lane_idx, cap', p.frame_count + 1⟩ := by
  simp [detectVehiclesStep, hr, hm, hd]

theorem detectVehiclesStep_detector_error (det : Frame → Int → Except String LaneObservation)
    (lane_idx : Fin 4) (ts : Int) (p : PipelineState) (frame : Frame) (cap' : Cap)
    (e : String) (hr : p.cap.read = (some frame, cap'))
    (hm : p.frame_count % 3 = 0) (hd : det frame ts = Except.error e) :
    detectVehiclesStep det lane_idx ts p = Except.error e := by
  simp [detectVehiclesStep, hr, hm, hd]

theorem generateFrameStep_oob (encode : Frame → List Nat) (s : TrafficSignalSystem)
    (lane_idx : Nat) (h : ¬ lane_idx < 4) :
    generateFrameStep encode s lane_idx
      = (Except.error "IndexError: list index out of range", s) := by
  simp [generateFrameStep, h]

theorem generateFrameStep_some (encode : Frame → List Nat) (s : TrafficSignalSystem)
    (lane_idx : Nat) (h : lane_idx < 4) (f : Frame) (hf : s.frames ⟨lane_idx, h⟩ = some f) :
    generateFrameStep encode s lane_idx
      = (Except.ok (some (framePayload (encode (Frame.copy f)))), s) := by
  simp [generateFrameStep, h, hf]

theorem generateFrameStep_none (encode : Frame → List Nat) (s : TrafficSignalSystem)
    (lane_idx : Nat) (h : lane_idx < 4) (hf : s.frames ⟨lane_idx, h⟩ = none) :
    generateFrameStep encode s lane_idx = (Except.ok none, s) := by
  simp [generateFrameStep, h, hf]

theorem generateFrameStep_snd (encode : Frame → List Nat) (s : TrafficSignalSystem)
    (lane_idx : Nat) : (generateFrameStep encode s lane_idx).2 = s := by
  by_cases h : lane_idx < 4
  · cases hf : s.frames ⟨lane_idx, h⟩ <;> simp [generateFrameStep, h, hf]
  · simp [generateFrameStep, h]

end Helpers

/-- C1 (counterexample).  The claim says the initial state has lane 0 GREEN
and that exactly one lane is GREEN at every instant from startup onward.  In
`__init__` the source sets `signal_states = ['red'] * 4`, so at startup lane
0 is RED and no lane at all is GREEN. -/
theorem C1_counterexample :
    (initState 0).signal_states 0 = Signal.red ∧
    (∀ i : Fin 4, (initState 0).signal_states i ≠ Signal.green) := by
  decide

/-- C1 (amended).  The initial state has ALL four lanes RED (no lane GREEN);
every scheduler transition sets the current lane RED and lane
`(current + 1) mod 4` GREEN, so at-most-one-lane-green is preserved by every
check, and from the first transition onward exactly one lane (the new
current lane) is GREEN. -/
theorem C1_amended :
    (∀ t0 : Int, ∀ i : Fin 4, (initState t0).signal_states i = Signal.red) ∧
    (∀ (s : TrafficSignalSystem) (t : Int), greensAtMostCurrent s →
      greensAtMostCurrent (manageSignalsStep s t)) ∧
    (∀ (s : TrafficSignalSystem) (t : Int), greensAtMostCurrent s →
      signalFireCond s t → greensExactlyCurrent (manageSignalsStep s t)) := by
  refine ⟨fun t0 i => rfl, ?_, fired_greensExactlyCurrent⟩
  intro s t hmost
  by_cases hf : signalFireCond s t
  · exact fun i hi => (fired_greensExactlyCurrent s t hmost hf i).1 hi
  · rw [manageSignalsStep_not_fired s t hf]; exact hmost

/-- C1 (witness for the amended theorem): from the all-red startup state,
the first firing check (at `t = 11 > 10`) produces a state with exactly one
green lane. -/
theorem C1_amended_witness :
    greensExactlyCurrent (manageSignalsStep (initState 0) 11) :=
  C1_amended.2.2 (initState 0) 11 (by decide) (by decide)

/-- C2 (counterexample).  The claim says a lane's green duration is frozen at
phase entry.  Concretely: at `t = 11` lane 1 becomes green with vehicle count
0, so the entry-time duration is `get_green_time(0) = 10`.  If the count
stays 0, the check at `t = 22` (elapsed 11 > 10) advances to lane 2 — but if
mid-phase the detector publishes count 20 for lane 1, the same check at
`t = 22` recomputes `get_green_time(20) = 60` and does NOT advance: the
phase duration changed mid-phase, refuting freeze-at-entry. -/
theorem C2_counterexample :
    (manageSignalsStep (initState 0) 11).current_green = 1 ∧
    getGreenTime (manageSignalsStep (initState 0) 11)
      ((manageSignalsStep (initState 0) 11).vehicle_counts
        (manageSignalsStep (initState 0) 11).current_green) = 10 ∧
    (22 : Int) - (manageSignalsStep (initState 0) 11).last_signal_change > 10 ∧
    (manageSignalsStep (manageSignalsStep (initState 0) 11) 22).current_green = 2 ∧
    (manageSignalsStep
        (processLaneResult (manageSignalsStep (initState 0) 11) ⟨20, []⟩ 1)
        22).current_green = 1 := by
  decide

/-- C2 (amended).  The green duration is NOT frozen at phase entry: at every
1-second check `manage_signals` recomputes `get_green_time` from the green
lane's CURRENT vehicle count, and the phase ends exactly at the first check
where `now - last_signal_change` exceeds that recomputed value; a mid-phase
count change therefore changes the phase's duration. -/
theorem C2_amended :
    (∀ (s : TrafficSignalSystem) (t : Int),
      t - s.last_signal_change ≤ (getGreenTime s (s.vehicle_counts s.current_green) : Int) →
      manageSignalsStep s t = s) ∧
    (∀ (s : TrafficSignalSystem) (t : Int),
      t - s.last_signal_change > (getGreenTime s (s.vehicle_counts s.current_green) : Int) →
      (manageSignalsStep s t).last_signal_change = t ∧
      (manageSignalsStep s t).current_green = s.current_green + 1) := by
  constructor
  · intro s t h
    exact manageSignalsStep_not_fired s t (not_lt.mpr h)
  · intro s t hf
    rw [manageSignalsStep_fired s t hf]
    exact ⟨rfl, rfl⟩

/-- C2 (witness for the amended theorem): at `t = 5` (elapsed 5 ≤ 10) the
state is unchanged; at `t = 11` (elapsed 11 > 10) the phase ends and the
green advances. -/
theorem C2_amended_witness :
    manageSignalsStep (initState 0) 5 = initState 0 ∧
    (manageSignalsStep (initState 0) 11).last_signal_change = 11 ∧
    (manageSignalsStep (initState 0) 11).current_green = (0 : Fin 4) + 1 :=
  ⟨C2_amended.1 (initState 0) 5 (by decide),
   (C2_amended.2 (initState 0) 11 (by decide)).1,
   (C2_amended.2 (initState 0) 11 (by decide)).2⟩

/-- C3.  `get_green_time` is the 3-tier step function: below 5 vehicles it
returns `min_green_time = 10`; from 5 to 14 it returns
`(min_green_time + max_green_time) / 2 = 35` (integer division); from 15 on
it returns `max_green_time = 60`.  It is monotone non-decreasing, and
`green_time(4) = 10`, `green_time(5) = 35`, `green_time(14) = 35`,
`green_time(15) = 60`. -/
theorem C3_green_time_tiers :
    (∀ c : Nat, c < 5 → getGreenTime (initState 0) c = 10) ∧
    (∀ c : Nat, 5 ≤ c → c < 15 →
      getGreenTime (initState 0) c
          = ((initState 0).min_green_time + (initState 0).max_green_time) / 2 ∧
      getGreenTime (initState 0) c = 35) ∧
    (∀ c : Nat, 15 ≤ c → getGreenTime (initState 0) c = 60) ∧
    Monotone (getGreenTime (initState 0)) ∧
    (getGreenTime (initState 0) 4 = 10 ∧ getGreenTime (initState 0) 5 = 35 ∧
     getGreenTime (initState 0) 14 = 35 ∧ getGreenTime (initState 0) 15 = 60) := by
  refine ⟨?_, ?_, ?_, ?_, by decide⟩
  · intro c hc
    simp [getGreenTime, initState, hc]
  · intro c h5 h15
    have hc : ¬ c < 5 := by omega
    constructor <;> simp [getGreenTime, initState, hc, h15]
  · intro c h15
    have hc : ¬ c < 5 := by omega
    have hc' : ¬ c < 15 := by omega
    simp [getGreenTime, initState, hc, hc']
  · intro a b hab
    simp only [getGreenTime, initState]
    split_ifs <;> omega

/-- C3 (witness): the tier equations and monotonicity applied at concrete
counts 3, 7, 40 and the pair 2 ≤ 9. -/
theorem C3_green_time_tiers_witness :
    getGreenTime (initState 0) 3 = 10 ∧ getGreenTime (initState 0) 7 = 35 ∧
    getGreenTime (initState 0) 40 = 60 ∧
    getGreenTime (initState 0) 2 ≤ getGreenTime (initState 0) 9 :=
  ⟨C3_green_time_tiers.1 3 (by decide),
   (C3_green_time_tiers.2.1 7 (by decide) (by decide)).2,
   C3_green_time_tiers.2.2.1 40 (by decide),
   C3_green_time_tiers.2.2.2.1 (by decide : (2 : Nat) ≤ 9)⟩

/-- C4.  The only transition path of the scheduler: when the timing
condition does not hold, the state is completely unchanged (no manual
override or preemption path exists); when it holds, the green right-of-way
moves from the current lane `i` exactly to lane `(i + 1) mod 4` — the old
lane is set RED, the successor GREEN, all other lanes untouched — regardless
of the lanes' relative vehicle counts. -/
theorem C4_round_robin_only :
    (∀ (s : TrafficSignalSystem) (t : Int), ¬ signalFireCond s t →
      manageSignalsStep s t = s) ∧
    (∀ (s : TrafficSignalSystem) (t : Int), signalFireCond s t →
      (manageSignalsStep s t).current_green = s.current_green + 1 ∧
      ((manageSignalsStep s t).current_green : Nat) = ((s.current_green : Nat) + 1) % 4 ∧
      (manageSignalsStep s t).signal_states (s.current_green + 1) = Signal.green ∧
      (manageSignalsStep s t).signal_states s.current_green = Signal.red ∧
      (∀ i : Fin 4, i ≠ s.current_green → i ≠ s.current_green + 1 →
        (manageSignalsStep s t).signal_states i = s.signal_states i)) := by
  refine ⟨manageSignalsStep_not_fired, ?_⟩
  intro s t hf
  have hne : s.current_green ≠ s.current_green + 1 := (fin4_succ_ne s.current_green).symm
  rw [manageSignalsStep_fired s t hf]
  refine ⟨rfl, ?_, ?_, ?_, ?_⟩
  · simp [Fin.val_add]
  · simp
  · simp [Function.update_apply, hne]
  · intro i hi1 hi2
    simp [Function.update_apply, hi1, hi2]

/-- C4 (witness): no transition at `t = 5`; at `t = 11` the green moves from
lane 0 to lane 1 and lane 2 is untouched. -/
theorem C4_round_robin_only_witness :
    manageSignalsStep (initState 0) 5 = initState 0 ∧
    (manageSignalsStep (initState 0) 11).current_green = (0 : Fin 4) + 1 ∧
    (manageSignalsStep (initState 0) 11).signal_states ((0 : Fin 4) + 1) = Signal.green ∧
    (manageSignalsStep (initState 0) 11).signal_states 2 = (initState 0).signal_states 2 :=
  ⟨C4_round_robin_only.1 (initState 0) 5 (by decide),
   (C4_round_robin_only.2 (initState 0) 11 (by decide)).1,
   (C4_round_robin_only.2 (initState 0) 11 (by decide)).2.2.1,
   (C4_round_robin_only.2 (initState 0) 11 (by decide)).2.2.2.2 2 (by decide) (by decide)⟩

/-- C5 (counterexample).  The claim says a LaneState update is atomic, so a
reader never sees `vehicle_count` of observation K with `vehicles` of
observation K-1.  `process_lane_result` is three sequential unguarded
assignments with no lock; after its first statement has published the new
count and before the third has published the new vehicle list, the shared
state pairs `vehicle_counts[0]` of observation `obsNext` (K) with
`detected_vehicles[0]` of observation `obsPrev` (K-1). -/
theorem C5_counterexample :
    (processLaneResultStep1 (processLaneResult (initState 0) obsPrev 0) obsNext 0).vehicle_counts 0
        = obsNext.number_of_vehicles_detected ∧
    (processLaneResultStep1 (processLaneResult (initState 0) obsPrev 0) obsNext 0).detected_vehicles 0
        = obsPrev.detected_vehicles ∧
    obsPrev.detected_vehicles ≠ obsNext.detected_vehicles := by
  decide

/-- C5 (amended).  A lane's observation is published by three separate
sequential field writes (count, then average speed, then vehicle list) with
no synchronization: after all three writes the lane's count and vehicle list
both come from the new observation, but in the intermediate state after the
first write a concurrent reader observes the NEW count paired with the
PREVIOUS observation's vehicle list — the update is not atomic. -/
theorem C5_amended (s : TrafficSignalSystem) (result : LaneObservation) (lane_idx : Fin 4) :
    ((processLaneResult s result lane_idx).vehicle_counts lane_idx
        = result.number_of_vehicles_detected ∧
     (processLaneResult s result lane_idx).detected_vehicles lane_idx
        = result.detected_vehicles) ∧
    ((processLaneResultStep1 s result lane_idx).vehicle_counts lane_idx
        = result.number_of_vehicles_detected ∧
     (processLaneResultStep1 s result lane_idx).detected_vehicles lane_idx
        = s.detected_vehicles lane_idx) := by
  refine ⟨⟨?_, ?_⟩, ?_, rfl⟩
  · rw [processLaneResult_counts]; simp
  · rw [processLaneResult_vehicles]; simp
  · simp [processLaneResultStep1]

/-- C6.  Average speed policy of `process_lane_result`: the published
`average_speeds[lane]` is the arithmetic mean of exactly the vehicles whose
`speed_info.kph` is non-absent, and 0 when no vehicle reports a speed, while
`vehicle_counts[lane]` is taken from `number_of_vehicles_detected`
independently of how many vehicles report a speed.  Scenario C: speeds
`[30, None, 50]` yield average 40 and count 3. -/
theorem C6_average_speed_policy :
    (∀ (s : TrafficSignalSystem) (result : LaneObservation) (lane_idx : Fin 4),
      laneSpeeds result = [] →
      (processLaneResult s result lane_idx).average_speeds lane_idx = 0) ∧
    (∀ (s : TrafficSignalSystem) (result : LaneObservation) (lane_idx : Fin 4),
      laneSpeeds result ≠ [] →
      (processLaneResult s result lane_idx).average_speeds lane_idx
        = (laneSpeeds result).sum / (laneSpeeds result).length) ∧
    (∀ (s : TrafficSignalSystem) (result : LaneObservation) (lane_idx : Fin 4),
      (processLaneResult s result lane_idx).vehicle_counts lane_idx
        = result.number_of_vehicles_detected) ∧
    ((processLaneResult (initState 0) scenarioCObs 0).average_speeds 0 = 40 ∧
     (processLaneResult (initState 0) scenarioCObs 0).vehicle_counts 0 = 3) := by
  refine ⟨?_, ?_, ?_, ?_, by decide⟩
  · intro s result lane_idx h
    rw [processLaneResult_speeds]; simp [h]
  · intro s result lane_idx h
    rw [processLaneResult_speeds]; simp [h]
  · intro s result lane_idx
    rw [processLaneResult_counts]; simp
  · rw [processLaneResult_speeds]
    simp [laneSpeeds, scenarioCObs]
    norm_num

/-- C6 (witness): the mean and zero cases applied at the Scenario C
observation and at an observation with no reported speeds. -/
theorem C6_average_speed_policy_witness :
    (processLaneResult (initState 0) obsNoSpeed 0).average_speeds 0 = 0 ∧
    (processLaneResult (initState 0) scenarioCObs 0).average_speeds 0
      = (laneSpeeds scenarioCObs).sum / (laneSpeeds scenarioCObs).length :=
  ⟨C6_average_speed_policy.1 (initState 0) obsNoSpeed 0 (by decide),
   C6_average_speed_policy.2.1 (initState 0) scenarioCObs 0 (by decide)⟩

/-- C7 (counterexample).  The claim says a detector exception is logged,
skipped and never fatal.  The `detect_vehicles` loop body has no
`try`/`except`: with the capture positioned on a readable frame and
`frame_count % 3 == 0`, a raising detector makes the iteration itself raise
(`Except.error`), terminating the pipeline loop instead of continuing. -/
theorem C7_counterexample :
    detectVehiclesStep failingDetector 0 0 ⟨initState 0, ⟨[[1]], 0⟩, 0⟩
      = Except.error "detector exception" := rfl

/-- C7 (amended).  An unreadable frame (failed `cap.read()`) is absorbed: the
iteration rewinds the capture and continues with the lane's prior state and
counter fully retained (it is not logged).  A detector exception, however,
is NOT caught: it propagates out of the iteration and terminates the
pipeline loop. -/
theorem C7_amended :
    (∀ (det : Frame → Int → Except String LaneObservation) (lane_idx : Fin 4)
        (ts : Int) (p : PipelineState), p.cap.frames[p.cap.pos]? = none →
      detectVehiclesStep det lane_idx ts p
        = Except.ok ⟨p.sys, p.cap.rewind, p.frame_count⟩) ∧
    (∀ (det : Frame → Int → Except String LaneObservation) (lane_idx : Fin 4)
        (ts : Int) (p : PipelineState) (frame : Frame) (cap' : Cap) (e : String),
      p.cap.read = (some frame, cap') → p.frame_count % 3 = 0 →
      det frame ts = Except.error e →
      detectVehiclesStep det lane_idx ts p = Except.error e) :=
  ⟨detectVehiclesStep_read_fail, detectVehiclesStep_detector_error⟩

/-- C7 (witness for the amended theorem): a failed read on an exhausted
one-frame capture rewinds and keeps the state; a raising detector on frame 0
aborts the iteration with its exception. -/
theorem C7_amended_witness :
    detectVehiclesStep failingDetector 0 0 ⟨initState 0, ⟨[[1]], 1⟩, 0⟩
      = Except.ok ⟨initState 0, Cap.rewind ⟨[[1]], 1⟩, 0⟩ ∧
    detectVehiclesStep failingDetector 0 0 ⟨initState 0, ⟨[[1]], 0⟩, 3⟩
      = Except.error "detector exception" :=
  ⟨C7_amended.1 failingDetector 0 0 ⟨initState 0, ⟨[[1]], 1⟩, 0⟩ (by decide),
   C7_amended.2 failingDetector 0 0 ⟨initState 0, ⟨[[1]], 0⟩, 3⟩ [1] ⟨[[1]], 1⟩
     "detector exception" (by decide) (by decide) rfl⟩

/-- C8 (counterexample).  The claim says an out-of-range `lane_idx` yields a
"lane not found" request error.  `generate_frame` has no bounds check: lane
index 4 makes the first iteration of the generator raise
`IndexError: list index out of range` (surfacing as an internal server
error that aborts the stream), not a not-found response. -/
theorem C8_counterexample :
    (generateFrameStep (fun f => f) (initState 0) 4).1
      = Except.error "IndexError: list index out of range" := rfl

/-- C8 (amended).  There is no bounds check and no "lane not found" path:
for `lane_idx` outside `[0, 4)` the first consumed element of the stream
raises `IndexError` (an uncaught exception, surfacing as a server error);
for `lane_idx` in `[0, 4)` an iteration never raises — it yields the encoded
copy of the lane's current frame when one exists and yields nothing (the
loop spins) while none exists, giving a lazy infinite payload sequence. -/
theorem C8_amended :
    (∀ (encode : Frame → List Nat) (s : TrafficSignalSystem) (lane_idx : Nat),
      4 ≤ lane_idx →
      (generateFrameStep encode s lane_idx).1
        = Except.error "IndexError: list index out of range") ∧
    (∀ (encode : Frame → List Nat) (s : TrafficSignalSystem) (lane_idx : Nat)
        (h : lane_idx < 4) (f : Frame), s.frames ⟨lane_idx, h⟩ = some f →
      (generateFrameStep encode s lane_idx).1
        = Except.ok (some (framePayload (encode (Frame.copy f))))) ∧
    (∀ (encode : Frame → List Nat) (s : TrafficSignalSystem) (lane_idx : Nat)
        (h : lane_idx < 4), s.frames ⟨lane_idx, h⟩ = none →
      (generateFrameStep encode s lane_idx).1 = Except.ok none) := by
  refine ⟨?_, ?_, ?_⟩
  · intro encode s lane_idx h
    rw [generateFrameStep_oob encode s lane_idx (by omega)]
  · intro encode s lane_idx h f hf
    rw [generateFrameStep_some encode s lane_idx h f hf]
  · intro encode s lane_idx h hf
    rw [generateFrameStep_none encode s lane_idx h hf]

/-- C8 (witness for the amended theorem): index 7 raises; lane 0 of a state
holding frame `[5]` yields its encoded payload; lane 1 with no frame yields
nothing. -/
theorem C8_amended_witness :
    (generateFrameStep (fun f => f) (initState 0) 7).1
      = Except.error "IndexError: list index out of range" ∧
    (generateFrameStep (fun f => f) sFrame 0).1
      = Except.ok (some (framePayload ((fun f => f) (Frame.copy [5])))) ∧
    (generateFrameStep (fun f => f) sFrame 1).1 = Except.ok none :=
  ⟨C8_amended.1 (fun f => f) (initState 0) 7 (by decide),
   C8_amended.2.1 (fun f => f) sFrame 0 (by decide) [5] (by decide),
   C8_amended.2.2 (fun f => f) sFrame 1 (by decide) (by decide)⟩

/-- C9.  End-of-stream handling of `detect_vehicles`: a failed read (the
source exhausted) rewinds the capture to position 0 and continues, leaving
the shared state and the processed-frame counter `frame_count` unchanged;
after a rewind the next read returns the video's first frame again; and
every iteration that reads a frame successfully increments `frame_count` by
exactly 1, whether or not detection ran on that frame. -/
theorem C9_rewind_and_counter :
    (∀ (det : Frame → Int → Except String LaneObservation) (lane_idx : Fin 4)
        (ts : Int) (p : PipelineState), p.cap.frames[p.cap.pos]? = none →
      detectVehiclesStep det lane_idx ts p
        = Except.ok ⟨p.sys, p.cap.rewind, p.frame_count⟩) ∧
    (∀ (det : Frame → Int → Except String LaneObservation) (lane_idx : Fin 4)
        (ts : Int) (p q : PipelineState) (frame : Frame) (cap' : Cap),
      p.cap.read = (some frame, cap') →
      detectVehiclesStep det lane_idx ts p = Except.ok q →
      q.frame_count = p.frame_count + 1) ∧
    (∀ (c : Cap) (f : Frame) (rest : List Frame), c.frames = f :: rest →
      (c.rewind.read).1 = some f) := by
  refine ⟨detectVehiclesStep_read_fail, ?_, ?_⟩
  · intro det lane_idx ts p q frame cap' hr hq
    by_cases hm : p.frame_count % 3 = 0
    · cases hd : det frame ts with
      | ok result =>
        rw [detectVehiclesStep_process det lane_idx ts p frame cap' result hr hm hd] at hq
        cases hq
        rfl
      | error e =>
        rw [detectVehiclesStep_detector_error det lane_idx ts p frame cap' e hr hm hd] at hq
        cases hq
    · rw [detectVehiclesStep_skip det lane_idx ts p frame cap' hr hm] at hq
      cases hq
      rfl
  · intro c f rest hc
    simp [Cap.rewind, Cap.read, hc]

/-- C9 (witness): on an exhausted two-frame capture the step rewinds with
the counter untouched; a successful skipped read increments the counter;
the read after a rewind returns the first frame. -/
theorem C9_rewind_and_counter_witness :
    detectVehiclesStep stubDetector 0 0 ⟨initState 0, ⟨[[1], [2]], 2⟩, 5⟩
      = Except.ok ⟨initState 0, Cap.rewind ⟨[[1], [2]], 2⟩, 5⟩ ∧
    (⟨initState 0, ⟨[[1]], 1⟩, 2⟩ : PipelineState).frame_count
      = (⟨initState 0, ⟨[[1]], 0⟩, 1⟩ : PipelineState).frame_count + 1 ∧
    ((Cap.rewind ⟨[[9], [8]], 2⟩).read).1 = some [9] := by
  refine ⟨C9_rewind_and_counter.1 stubDetector 0 0 ⟨initState 0, ⟨[[1], [2]], 2⟩, 5⟩ (by decide),
    ?_, C9_rewind_and_counter.2.2 ⟨[[9], [8]], 2⟩ [9] [[8]] rfl⟩
  exact C9_rewind_and_counter.2.1 stubDetector 0 0
    ⟨initState 0, ⟨[[1]], 0⟩, 1⟩ ⟨initState 0, ⟨[[1]], 1⟩, 2⟩ [1] ⟨[[1]], 1⟩ (by decide) rfl

/-- C10.  Producing a stream element has no effect on the system state: one
iteration of `generate_frame` returns the state it was given, completely
unchanged, and for a lane holding a frame the emitted payload is exactly the
multipart-wrapped encoding of a copy of that stored frame. -/
theorem C10_stream_read_only :
    (∀ (encode : Frame → List Nat) (s : TrafficSignalSystem) (lane_idx : Nat),
      (generateFrameStep encode s lane_idx).2 = s) ∧
    (∀ (encode : Frame → List Nat) (s : TrafficSignalSystem) (lane_idx : Fin 4)
        (f : Frame), s.frames lane_idx = some f →
      (generateFrameStep encode s lane_idx.val).1
        = Except.ok (some (framePayload (encode (Frame.copy f))))) := by
  refine ⟨generateFrameStep_snd, ?_⟩
  intro encode s lane_idx f hf
  rw [generateFrameStep_some encode s lane_idx.val lane_idx.isLt f (by simpa using hf)]

/-- C10 (witness): streaming lane 0 of `sFrame` leaves the state intact and
yields the wrapped encoding of the stored frame `[5]`. -/
theorem C10_stream_read_only_witness :
    (generateFrameStep (fun f => f) sFrame 0).2 = sFrame ∧
    (generateFrameStep (fun f => f) sFrame (0 : Fin 4).val).1
      = Except.ok (some (framePayload ((fun f => f) (Frame.copy [5])))) :=
  ⟨C10_stream_read_only.1 (fun f => f) sFrame 0,
   C10_stream_read_only.2 (fun f => f) sFrame 0 [5] (by decide)⟩

end Mapback
